import Mathlib

/-!
Shallow embedding of the JetStream buffer reader
(`pkg/isb/jetstream/reader.go`), of the ISB buffer lifecycle commands and
of the pipeline controller's limit propagation, together with theorems
about the properties the specification states for them.

Machine integers are modelled as `Nat`/`Int`; Go durations are integers
counting nanoseconds; `time.Duration.Seconds()` is modelled as exact
rational division by `10^9`.  Fallible Go functions return a product with
an `Option` error or an `Except`.
-/

namespace Numaflow

/-! ### Broker-side model (external `nats` library)

The nats broker is an external collaborator.  A delivered message carries a
stream sequence, wire headers and a payload; acknowledging it synchronously
(`msg.AckSync()`) answers according to the broker-side state of the message:
a first ack succeeds, a repeated ack answers `ErrMsgAlreadyAckd`, an ack for
a message the broker no longer tracks answers `ErrMsgNotFound`, and a broker
failure surfaces any other error. -/

/-- Error answered by the broker to `msg.AckSync()` / `msg.InProgress()`:
`nats.ErrMsgAlreadyAckd`, `nats.ErrMsgNotFound`, or any other error. -/
inductive AckSyncErr where
  | alreadyAckd
  | notFound
  | other (s : String)
deriving DecidableEq, Repr

/-- Broker-side state of one delivered message at the time an ack arrives. -/
inductive MsgState where
  | inflight
  | acked
  | gone
  | failing (s : String)
deriving DecidableEq, Repr

/-- Model of `msg.AckSync()`: the new broker-side state of the message and
the error the broker answers, if any. -/
def msgAckSync : MsgState → MsgState × Option AckSyncErr
  | MsgState.inflight => (MsgState.acked, none)
  | MsgState.acked => (MsgState.acked, some AckSyncErr.alreadyAckd)
  | MsgState.gone => (MsgState.gone, some AckSyncErr.notFound)
  | MsgState.failing s => (MsgState.failing s, some (AckSyncErr.other s))

/-- Wire headers of a nats message: `nats.Header` is a map from a key to a
list of values, modelled as an association list. -/
abbrev NatsHeader : Type := List (String × List String)

/-- Model of `nats.Header.Get`: the first value stored under the key, or the
empty string when the key is absent or holds no value. -/
def headerGet (h : NatsHeader) (k : String) : String :=
  match List.find? (fun p => p.1 == k) h with
  | some p =>
    match p.2 with
    | [] => ""
    | v :: _ => v
  | none => ""

/-- Model of a delivered `nats.Msg`: `metaSeq` is `metadata.Sequence.Stream`
from `msg.Metadata()`, `header` the wire headers, `data` the payload bytes. -/
structure NatsMsg where
  metaSeq : Nat
  header : NatsHeader
  data : List Nat
deriving DecidableEq, Repr

/-! ### Header keys and `strconv.ParseInt`

The reserved header keys (`_window`, `_id`, ...) are wire-layer constants of
the JetStream ISB; their values come from the broker-headers table of the
specification. -/

def keyWindow : String := "window"

def keyId : String := "id"

def keyKey : String := "key"

def keyEventTime : String := "eventTime"

def keyStartTime : String := "startTime"

def keyEndTime : String := "endTime"

/-- Value of a decimal digit character, `none` on any other character. -/
def digitVal (c : Char) : Option Nat :=
  if c.isDigit then some (c.toNat - 48) else none

/-- Value of a non-empty all-digit character list in base 10, `none` when
the list is empty or holds a non-digit. -/
def decDigitsVal (cs : List Char) : Option Nat :=
  match cs with
  | [] => none
  | _ :: _ =>
    List.foldl
      (fun acc c => Option.bind acc (fun a => Option.map (fun d => 10 * a + d) (digitVal c)))
      (some 0) cs

/-- Syntax phase of Go `strconv.ParseInt(s, 10, 64)`: an optional sign
followed by at least one digit; `none` models a `strconv.ErrSyntax`. -/
def goParseInt64Strict (s : String) : Option Int :=
  match s.data with
  | [] => none
  | c :: rest =>
    let signedDigits : Bool × List Char :=
      if c = '-' then (true, rest)
      else if c = '+' then (false, rest)
      else (false, c :: rest)
    match decDigitsVal signedDigits.2 with
    | none => none
    | some n => some (if signedDigits.1 then -(n : Int) else (n : Int))

/-- Go `strconv.ParseInt(s, 10, 64)` with the returned error discarded, as
the reader does: a syntax error yields `0`, a value out of the `int64`
range is clamped to the maximum magnitude of the right sign. -/
def goParseInt64 (s : String) : Int :=
  match goParseInt64Strict s with
  | none => 0
  | some v =>
    if v < -(2 ^ 63) then -(2 ^ 63)
    else if 2 ^ 63 - 1 < v then 2 ^ 63 - 1
    else v

/-! ### `isb.Header` and `convert2IsbMsgHeader` -/

/-- Model of `isb.Header`.  A Go `time.Time` field is `none` at its zero
value and `some ms` for `time.UnixMilli(ms)` (note `time.UnixMilli(0)` is
not the zero `time.Time`, so the two are distinct here as in Go); `Key`
(`[]byte`) is modelled as a string. -/
structure IsbHeader where
  isWindow : Bool := false
  id : String := ""
  key : String := ""
  eventTime : Option Int := none
  startTime : Option Int := none
  endTime : Option Int := none
deriving DecidableEq, Repr

/-- Embedding of `convert2IsbMsgHeader` (reader.go): each present header
updates the corresponding field of a zero-valued `isb.Header`. -/
def convert2IsbMsgHeader (header : NatsHeader) : IsbHeader :=
  let r : IsbHeader := {}
  let r := if headerGet header keyWindow == "1" then { r with isWindow := true } else r
  let xid := headerGet header keyId
  let r := if xid != "" then { r with id := xid } else r
  let xkey := headerGet header keyKey
  let r := if xkey != "" then { r with key := xkey } else r
  let xev := headerGet header keyEventTime
  let r := if xev != "" then { r with eventTime := some (goParseInt64 xev) } else r
  let xst := headerGet header keyStartTime
  let r := if xst != "" then { r with startTime := some (goParseInt64 xst) } else r
  let xen := headerGet header keyEndTime
  let r := if xen != "" then { r with endTime := some (goParseInt64 xen) } else r
  r

/-! ### `offset`: ack token with optional heartbeat handle -/

/-- A Go runtime panic observable in this model: invoking a nil function
value. -/
inductive GoPanic where
  | nilFunctionCall
deriving DecidableEq, Repr

/-- Model of invoking a Go function value of type `context.CancelFunc`:
invoking a nil function value panics. -/
def callFunc : Option Unit → Except GoPanic Unit
  | some _ => Except.ok ()
  | none => Except.error GoPanic.nilFunctionCall

/-- Embedding of the `offset` struct (reader.go): the stream sequence, the
raw message handle, and the heartbeat cancellation handle (`none` models a
nil `cancelFunc`). -/
structure offset where
  seq : Nat
  msg : NatsMsg
  cancelFunc : Option Unit
deriving DecidableEq, Repr

/-- Embedding of `newOffset` (reader.go): capture the stream sequence; when
`tickDuration.Seconds() > 1` spawn the in-flight heartbeat and keep its
cancellation handle, otherwise leave the handle nil.  The duration is in
nanoseconds and `Seconds()` is exact rational division. -/
def newOffset (msg : NatsMsg) (tickDurationNs : Int) : offset :=
  if 1 < (tickDurationNs : ℚ) / 1000000000 then
    { seq := msg.metaSeq, msg := msg, cancelFunc := some () }
  else
    { seq := msg.metaSeq, msg := msg, cancelFunc := none }

/-- Embedding of `offset.AckIt` (reader.go): invoke the cancellation handle
only when it is non-nil, then `msg.AckSync()`; `ErrMsgAlreadyAckd` and
`ErrMsgNotFound` are coerced to success, any other broker error is
returned.  The broker-side state of the message is passed in and the new
state returned; an `Except.error` would be a runtime panic. -/
def offset.AckIt (o : offset) (st : MsgState) :
    Except GoPanic (Option String × MsgState) := do
  if o.cancelFunc.isSome then
    let _ ← callFunc o.cancelFunc
  let ackRes := msgAckSync st
  match ackRes.2 with
  | some (AckSyncErr.other s) => return (some s, ackRes.1)
  | some AckSyncErr.alreadyAckd => return (none, ackRes.1)
  | some AckSyncErr.notFound => return (none, ackRes.1)
  | none => return (none, ackRes.1)

/-- The error `offset.AckIt` returns for a message whose broker-side state
is `st`: only a broker error other than already-acked / not-found. -/
def ackItErr (st : MsgState) : Option String :=
  match (msgAckSync st).2 with
  | some (AckSyncErr.other s) => some s
  | _ => none

/-- The value `offset.AckIt` produces: its returned error together with the
broker-side state the ack leaves behind. -/
def ackItResult (st : MsgState) : Option String × MsgState :=
  (ackItErr st, (msgAckSync st).1)

/-! ### The reader: construction, `Read`, `Ack` -/

/-- Read options bag of the reader; only `readTimeOut` matters here. -/
structure readOptions where
  readTimeOutNs : Int
deriving DecidableEq, Repr

/-- Embedding of the `jetStreamReader` struct (reader.go); durations are in
nanoseconds. -/
structure jetStreamReader where
  name : String
  stream : String
  subject : String
  opts : readOptions
  inProgessTickDuration : Int
deriving DecidableEq, Repr

/-- The tick computation in `NewJetStreamBufferReader`:
`inProgessTickSeconds := int64(consumer.Config.AckWait.Seconds() * 2 / 3)`
clamped below by 1.  `AckWait` is in nanoseconds; `Seconds()` is exact
rational division; the `int64` conversion truncates toward zero. -/
def inProgessTickSeconds (ackWaitNs : Int) : Int :=
  let x : ℚ := (ackWaitNs : ℚ) / 1000000000 * 2 / 3
  let t : Int := if x < 0 then ⌈x⌉ else ⌊x⌋
  if t < 1 then 1 else t

/-- The tick duration stored by the constructor, in nanoseconds:
`time.Duration(inProgessTickSeconds * int64(time.Second))`. -/
def inProgessTickDurationNs (ackWaitNs : Int) : Int :=
  inProgessTickSeconds ackWaitNs * 1000000000

/-- Environment of one run of `NewJetStreamBufferReader`: the outcome of
each fallible step (`none` = step succeeds), the outcome of each read
option applied in order, and the server-configured `AckWait` of the
consumer. -/
structure SetupEnv where
  connectErr : Option String
  jetStreamErr : Option String
  subscribeErr : Option String
  optResults : List (Option String)
  consumerInfoErr : Option String
  ackWaitNs : Int
deriving DecidableEq, Repr

/-- Outcome of `NewJetStreamBufferReader`: the reader or the error, and
whether the nats connection is still open when the function returns. -/
structure SetupOutcome where
  reader : Option jetStreamReader
  err : Option String
  connOpen : Bool
deriving DecidableEq, Repr

/-- Result of the option-application loop: the first error an option
returns, if any (`opt != nil` entries are the list's elements). -/
def firstOptErr (optResults : List (Option String)) : Option String :=
  List.findSome? (fun r => r) optResults

/-- Embedding of `NewJetStreamBufferReader` (reader.go): connect, get the
JetStream context, create the pull subscription, apply the read options,
fetch consumer info, compute the tick duration and build the reader.  Each
`conn.Close()` of the source shows up here as `connOpen := false`; note the
source does not close the connection when a read option fails. -/
def NewJetStreamBufferReader (name stream subject : String)
    (defaultTimeOutNs : Int) (env : SetupEnv) : SetupOutcome :=
  match env.connectErr with
  | some e =>
    { reader := none, err := some ("failed to get nats connection, " ++ e), connOpen := false }
  | none =>
    match env.jetStreamErr with
    | some e =>
      { reader := none, err := some ("failed to get jetstream context, " ++ e), connOpen := false }
    | none =>
      match env.subscribeErr with
      | some e =>
        { reader := none
          err := some ("failed to subscribe jet stream subject " ++ subject ++ ", " ++ e)
          connOpen := false }
      | none =>
        match firstOptErr env.optResults with
        | some e => { reader := none, err := some e, connOpen := true }
        | none =>
          match env.consumerInfoErr with
          | some e =>
            { reader := none, err := some ("failed to get consumer info, " ++ e), connOpen := false }
          | none =>
            { reader := some
                { name := name
                  stream := stream
                  subject := subject
                  opts := { readTimeOutNs := defaultTimeOutNs }
                  inProgessTickDuration := inProgessTickDurationNs env.ackWaitNs }
              err := none
              connOpen := true }

/-- Error answered by `sub.Fetch`: `nats.ErrTimeout` or any other error. -/
inductive FetchErr where
  | timeout
  | other (s : String)
deriving DecidableEq, Repr

/-- Model of `isb.ReadMessage`: the read offset plus the decoded header and
the payload of the wrapped `isb.Message`. -/
structure ReadMessage where
  readOffset : offset
  header : IsbHeader
  payload : List Nat
deriving DecidableEq, Repr

/-- The wrapping `Read` performs for each delivered broker message. -/
def wrapMsg (tickDurationNs : Int) (m : NatsMsg) : ReadMessage :=
  { readOffset := newOffset m tickDurationNs
    header := convert2IsbMsgHeader m.header
    payload := m.data }

/-- Embedding of `jetStreamReader.Read` (reader.go).  `fetch count` models
`jr.sub.Fetch(int(count), nats.MaxWait(jr.opts.readTimeOut))`, returning
the delivered messages and an optional error.  A non-timeout fetch error is
returned with nil messages; otherwise every delivered message is wrapped. -/
def jetStreamReader.Read (jr : jetStreamReader) (count : Int)
    (fetch : Int → List NatsMsg × Option FetchErr) :
    Option (List ReadMessage) × Option String :=
  let fres := fetch count
  match fres.2 with
  | some (FetchErr.other s) =>
    (none, some ("failed to fetch messages from jet stream subject " ++ jr.subject ++ ", " ++ s))
  | _ => (some (List.map (wrapMsg jr.inProgessTickDuration) fres.1), none)

/-- Embedding of `jetStreamReader.Ack` (reader.go): one task per offset
runs `o.AckIt()` and stores its error at the offset's index (nil on
success); the call returns once every task has finished.  `brokerState`
gives each offset's broker-side message state. -/
def jetStreamReader.Ack (offsets : List offset) (brokerState : offset → MsgState) :
    Except GoPanic (List (Option String)) :=
  List.mapM (fun o => Except.map (fun r => r.1) (o.AckIt (brokerState o))) offsets

/-! ### ISB buffer lifecycle commands

The command implementations (`cmd/commands/isbsvc_buffer_*.go`) are not in
the excerpt; only their test is.  They are modelled from the specification
and constrained by the behaviour `Test_Commands` asserts: the create
command validates the buffer list first (error text "buffer list should not
be empty"), then the `PipelineName` environment variable ("required
environment variable ... not defined" even when the isbsvc type is bad),
then the isbsvc type ("unsupported isb service type"); delete and validate
report "buffer not supplied" for a missing buffer list. -/

/-- Error of an ISB buffer lifecycle command. -/
inductive CmdErr where
  | emptyBufferList
  | bufferNotSupplied
  | missingEnv (name : String)
  | unsupportedISBSvcType
deriving DecidableEq, Repr

/-- Name of the pipeline-name environment variable checked by the
commands. -/
def EnvPipelineName : String := "PipelineName"

/-- The supported isbsvc types of the CLI. -/
def supportedISBSvcType (s : String) : Bool :=
  s == "redis" || s == "jetstream"

/-- Modelled from the spec: the `isbsvc-buffer-create` command body, which
is not in the excerpt.  It validates that `buffers` is non-empty, fails
fast with a missing-environment error when the pipeline name is unset,
rejects an unsupported isbsvc type, and otherwise provisions each buffer
(idempotent provisioning is abstracted to success). -/
def isbSvcBufferCreate (pipelineNameEnv : Option String) (buffers : List String)
    (isbSvcType : String) : Except CmdErr Unit :=
  if buffers.isEmpty then Except.error CmdErr.emptyBufferList
  else
    match pipelineNameEnv with
    | none => Except.error (CmdErr.missingEnv EnvPipelineName)
    | some _ =>
      if supportedISBSvcType isbSvcType then Except.ok ()
      else Except.error CmdErr.unsupportedISBSvcType

/-- Modelled from the spec: the `isbsvc-buffer-delete` command body, which
is not in the excerpt; symmetric to create, with the "buffer not
supplied" wording of its test. -/
def isbSvcBufferDelete (pipelineNameEnv : Option String) (buffers : List String)
    (isbSvcType : String) : Except CmdErr Unit :=
  if buffers.isEmpty then Except.error CmdErr.bufferNotSupplied
  else
    match pipelineNameEnv with
    | none => Except.error (CmdErr.missingEnv EnvPipelineName)
    | some _ =>
      if supportedISBSvcType isbSvcType then Except.ok ()
      else Except.error CmdErr.unsupportedISBSvcType

/-- Modelled from the spec: the `isbsvc-buffer-validate` command body,
which is not in the excerpt; symmetric to delete. -/
def isbSvcBufferValidate (pipelineNameEnv : Option String) (buffers : List String)
    (isbSvcType : String) : Except CmdErr Unit :=
  if buffers.isEmpty then Except.error CmdErr.bufferNotSupplied
  else
    match pipelineNameEnv with
    | none => Except.error (CmdErr.missingEnv EnvPipelineName)
    | some _ =>
      if supportedISBSvcType isbSvcType then Except.ok ()
      else Except.error CmdErr.unsupportedISBSvcType

/-! ### Pipeline limit propagation

The controller function `copyVertexLimits` (controllers/pipeline) is not
in the excerpt; only its test is.  It is modelled from the specification
("vertex value (if non-nil) > pipeline value > unset, field by field"),
matching every assertion of `Test_copyVertexLimits`. -/

/-- Model of `dfv1.VertexLimits`: both fields optional; `readTimeout` in
nanoseconds. -/
structure VertexLimits where
  readBatchSize : Option Nat
  readTimeout : Option Int
deriving DecidableEq, Repr

/-- Model of `dfv1.PipelineLimits`, restricted to the fields
`copyVertexLimits` considers. -/
structure PipelineLimits where
  readBatchSize : Option Nat
  readTimeout : Option Int
deriving DecidableEq, Repr

/-- Modelled from the spec: `copyVertexLimits(pl, vertex)`, which is not in
the excerpt.  With no pipeline limits the vertex limits are left untouched
(nil stays nil, as the test asserts); otherwise each vertex field that is
nil is filled from the pipeline, and a non-nil vertex field wins. -/
def copyVertexLimits (plLimits : Option PipelineLimits) (vLimits : Option VertexLimits) :
    Option VertexLimits :=
  match plLimits with
  | none => vLimits
  | some pl =>
    let v : VertexLimits :=
      match vLimits with
      | none => { readBatchSize := none, readTimeout := none }
      | some v0 => v0
    some
      { readBatchSize :=
          match v.readBatchSize with
          | some a => some a
          | none => pl.readBatchSize
        readTimeout :=
          match v.readTimeout with
          | some a => some a
          | none => pl.readTimeout }

/-! ### Theorems -/

/-- Bridge between the truncating `int64` conversion of the source and the
floor of the claim: the computed tick, in seconds, is exactly
`max 1 ⌊ackWait * 2 / 3⌋` with `ackWait` in seconds. -/
theorem inProgessTickSeconds_eq (ackWaitNs : Int) :
    inProgessTickSeconds ackWaitNs =
      max 1 ⌊(ackWaitNs : ℚ) / 1000000000 * 2 / 3⌋ := by
  unfold inProgessTickSeconds
  by_cases h : (ackWaitNs : ℚ) / 1000000000 * 2 / 3 < 0
  · have h1 : ⌈(ackWaitNs : ℚ) / 1000000000 * 2 / 3⌉ ≤ 0 :=
      Int.ceil_le.mpr (by exact_mod_cast h.le)
    have h2 : ⌊(ackWaitNs : ℚ) / 1000000000 * 2 / 3⌋ ≤ 0 := Int.floor_nonpos h.le
    simp only [if_pos h, if_pos (show ⌈(ackWaitNs : ℚ) / 1000000000 * 2 / 3⌉ < 1 by omega)]
    exact (max_eq_left (by omega)).symm
  · push_neg at h
    have h2 : 0 ≤ ⌊(ackWaitNs : ℚ) / 1000000000 * 2 / 3⌋ := Int.floor_nonneg.mpr h
    simp only [if_neg (not_lt.mpr h)]
    by_cases h3 : ⌊(ackWaitNs : ℚ) / 1000000000 * 2 / 3⌋ < 1
    · simp only [if_pos h3]
      exact (max_eq_left (by omega)).symm
    · simp only [if_neg h3]
      exact (max_eq_right (by omega)).symm

/-- C1: at reader construction, for every server-configured `ackWait`
duration (in nanoseconds), the computed in-progress tick duration equals
`max(1s, ⌊ackWait × 2/3⌋)` seconds, and in particular is never below one
second. -/
theorem c1_tick_duration_formula (ackWaitNs : Int) :
    inProgessTickDurationNs ackWaitNs =
      max 1 ⌊(ackWaitNs : ℚ) / 1000000000 * 2 / 3⌋ * 1000000000 ∧
    1000000000 ≤ inProgessTickDurationNs ackWaitNs := by
  unfold inProgessTickDurationNs
  rw [inProgessTickSeconds_eq]
  refine ⟨rfl, ?_⟩
  have h1 : (1 : Int) ≤ max 1 ⌊(ackWaitNs : ℚ) / 1000000000 * 2 / 3⌋ := le_max_left 1 _
  nlinarith

/-- Shared lemma: `offset.AckIt` never panics — the cancellation handle is
invoked only behind the non-nil guard — and its outcome is `ackItResult`
of the broker-side state of the message. -/
theorem ackIt_ok (o : offset) (st : MsgState) :
    offset.AckIt o st = Except.ok (ackItResult st) := by
  cases h : o.cancelFunc <;>
    cases st <;>
      simp [offset.AckIt, ackItResult, ackItErr, msgAckSync, callFunc, h, pure, Except.pure] <;>
        rfl

/-- Shared lemma: `List.mapM` over `Except` succeeds pointwise when every
element does. -/
theorem mapM_ok_of_forall {α β γ : Type} (f : α → Except γ β) (g : α → β)
    (hp : ∀ a, f a = Except.ok (g a)) (l : List α) :
    List.mapM f l = Except.ok (List.map g l) := by
  induction l with
  | nil => rfl
  | cons a as ih =>
    rw [List.mapM_cons, hp a, ih]
    rfl

/-- C2: for every count, a fetch timeout makes `Read` return an empty
message slice and a nil error, while any other fetch error is returned as
an error with nil messages. -/
theorem c2_read_timeout_not_error (jr : jetStreamReader) (count : Int)
    (fetch : Int → List NatsMsg × Option FetchErr) :
    (fetch count = ([], some FetchErr.timeout) →
      jetStreamReader.Read jr count fetch = (some [], none)) ∧
    (∀ msgs s, fetch count = (msgs, some (FetchErr.other s)) →
      (jetStreamReader.Read jr count fetch).1 = none ∧
      (jetStreamReader.Read jr count fetch).2.isSome = true) := by
  constructor
  · intro h
    simp [jetStreamReader.Read, h]
  · intro msgs s h
    simp [jetStreamReader.Read, h]

/-- Witness for C2 at a concrete reader and a timing-out fetch. -/
theorem c2_witness :
    jetStreamReader.Read
      { name := "b", stream := "s", subject := "s", opts := { readTimeOutNs := 1000000000 },
        inProgessTickDuration := 2000000000 }
      5 (fun _ => ([], some FetchErr.timeout)) = (some [], none) :=
  (c2_read_timeout_not_error _ 5 _).1 rfl

/-- C3: `Ack` answers one error slot per offset, in the same order, the
slot at index `i` being exactly the outcome of acking `offsets[i]` (`none`
meaning success); the call completes every per-offset ack (it is a total
function of all of them). -/
theorem c3_ack_positional (offsets : List offset) (brokerState : offset → MsgState) :
    ∃ errs, jetStreamReader.Ack offsets brokerState = Except.ok errs ∧
      errs.length = offsets.length ∧
      ∀ (i : Nat) (hi : i < offsets.length) (hi2 : i < errs.length),
        (offsets[i].AckIt (brokerState offsets[i])) =
          Except.ok (errs[i], (msgAckSync (brokerState offsets[i])).1) := by
  refine ⟨List.map (fun o => ackItErr (brokerState o)) offsets, ?_, by simp, ?_⟩
  · exact mapM_ok_of_forall _ _ (fun o => by rw [ackIt_ok]; rfl) offsets
  · intro i hi hi2
    rw [ackIt_ok]
    simp [ackItResult, List.getElem_map]

/-- Witness for C3 at a concrete one-offset batch. -/
theorem c3_witness :
    ∃ errs,
      jetStreamReader.Ack
        [{ seq := 3, msg := { metaSeq := 3, header := [], data := [] }, cancelFunc := some () }]
        (fun _ => MsgState.inflight) = Except.ok errs ∧ errs.length = 1 := by
  obtain ⟨errs, h1, h2, -⟩ :=
    c3_ack_positional
      [{ seq := 3, msg := { metaSeq := 3, header := [], data := [] }, cancelFunc := some () }]
      (fun _ => MsgState.inflight)
  exact ⟨errs, h1, h2⟩

/-- C4: `AckIt` returns nil whenever the broker answers already-acked or
not-found; a first ack from in-flight succeeds leaving the message acked,
and a second `AckIt` on the already-acked message again returns nil. -/
theorem c4_ackIt_idempotent (o : offset) (st : MsgState)
    (h : (msgAckSync st).2 = some AckSyncErr.alreadyAckd ∨
         (msgAckSync st).2 = some AckSyncErr.notFound) :
    offset.AckIt o st = Except.ok (none, (msgAckSync st).1) ∧
    offset.AckIt o MsgState.inflight = Except.ok (none, MsgState.acked) ∧
    offset.AckIt o MsgState.acked = Except.ok (none, MsgState.acked) := by
  refine ⟨?_, by rw [ackIt_ok]; rfl, by rw [ackIt_ok]; rfl⟩
  rw [ackIt_ok]
  cases st <;> simp_all [msgAckSync, ackItResult, ackItErr]

/-- Witness for C4: a second ack of an already-acked message, on an offset
without a heartbeat handle, returns nil. -/
theorem c4_witness :
    offset.AckIt
      { seq := 1, msg := { metaSeq := 1, header := [], data := [] }, cancelFunc := none }
      MsgState.acked = Except.ok (none, MsgState.acked) :=
  (c4_ackIt_idempotent
    { seq := 1, msg := { metaSeq := 1, header := [], data := [] }, cancelFunc := none }
    MsgState.acked (Or.inl rfl)).1

/-- C10: calling `AckIt` on an offset whose heartbeat was never spawned is
safe — the nil cancellation handle is never invoked, no panic occurs, and
the broker ack round-trip gives exactly the result it gives for an offset
with a heartbeat. -/
theorem c10_ackIt_nil_cancel_safe (seq : Nat) (m : NatsMsg) (st : MsgState) :
    (∃ r, offset.AckIt { seq := seq, msg := m, cancelFunc := none } st = Except.ok r) ∧
    offset.AckIt { seq := seq, msg := m, cancelFunc := none } st =
      offset.AckIt { seq := seq, msg := m, cancelFunc := some () } st := by
  refine ⟨⟨ackItResult st, ackIt_ok _ st⟩, ?_⟩
  rw [ackIt_ok, ackIt_ok]

/-- C5 counterexample: when a read option fails after connect, JetStream
context and subscription all succeeded, the constructor returns the error
while the broker connection is still open — the claimed release of every
partially acquired resource does not happen on this path. -/
theorem c5_counterexample :
    (NewJetStreamBufferReader "b" "s" "s" 1000000000
      { connectErr := none, jetStreamErr := none, subscribeErr := none,
        optResults := [some "invalid option"], consumerInfoErr := none,
        ackWaitNs := 3000000000 }).err = some "invalid option" ∧
    (NewJetStreamBufferReader "b" "s" "s" 1000000000
      { connectErr := none, jetStreamErr := none, subscribeErr := none,
        optResults := [some "invalid option"], consumerInfoErr := none,
        ackWaitNs := 3000000000 }).connOpen = true :=
  ⟨rfl, rfl⟩

/-- C5 amended: the constructor holds the connection open at an error
return exactly when the failing step is a read option (connect, JetStream
context and subscription having succeeded); every other failing step closes
the connection first, and a nil error always comes with a reader. -/
theorem c5_amended_release (name stream subject : String) (defaultTimeOutNs : Int)
    (env : SetupEnv) :
    (((NewJetStreamBufferReader name stream subject defaultTimeOutNs env).err.isSome = true ∧
      (NewJetStreamBufferReader name stream subject defaultTimeOutNs env).connOpen = true) ↔
      (env.connectErr = none ∧ env.jetStreamErr = none ∧ env.subscribeErr = none ∧
        (firstOptErr env.optResults).isSome = true)) ∧
    ((NewJetStreamBufferReader name stream subject defaultTimeOutNs env).err = none →
      (NewJetStreamBufferReader name stream subject defaultTimeOutNs env).reader.isSome = true) := by
  rcases env with ⟨ce, je, se, por, cie, aw⟩
  cases ce
  · cases je
    · cases se
      · cases hOpt : firstOptErr por
        · cases cie <;> simp [NewJetStreamBufferReader, hOpt]
        · simp [NewJetStreamBufferReader, hOpt]
      · simp [NewJetStreamBufferReader]
    · simp [NewJetStreamBufferReader]
  · simp [NewJetStreamBufferReader]

/-- Witness for C5 amended: a fully successful construction returns a
reader with no error. -/
theorem c5_witness :
    (NewJetStreamBufferReader "b" "s" "s" 1000000000
      { connectErr := none, jetStreamErr := none, subscribeErr := none,
        optResults := [none], consumerInfoErr := none,
        ackWaitNs := 3000000000 }).reader.isSome = true :=
  (c5_amended_release "b" "s" "s" 1000000000
    { connectErr := none, jetStreamErr := none, subscribeErr := none,
      optResults := [none], consumerInfoErr := none, ackWaitNs := 3000000000 }).2 rfl

/-- Shared lemma: `Seconds() > 1` on a nanosecond duration says exactly
that the duration exceeds one second. -/
theorem one_lt_div_1e9_iff (t : Int) :
    1 < (t : ℚ) / 1000000000 ↔ 1000000000 < t := by
  rw [lt_div_iff₀ (by norm_num : (0 : ℚ) < 1000000000), one_mul]
  exact_mod_cast Iff.rfl

/-- C6: an offset carries a heartbeat cancellation handle exactly when the
tick duration exceeds one second; at one second or below the handle is nil;
and every message delivered by `Read` gets its offset from `newOffset` at
the reader's tick duration. -/
theorem c6_heartbeat_iff (m : NatsMsg) (tickDurationNs : Int) :
    ((newOffset m tickDurationNs).cancelFunc.isSome = true ↔ 1000000000 < tickDurationNs) ∧
    (tickDurationNs ≤ 1000000000 → (newOffset m tickDurationNs).cancelFunc = none) ∧
    (∀ (jr : jetStreamReader) (count : Int)
        (fetch : Int → List NatsMsg × Option FetchErr) (msgs : List ReadMessage),
      jetStreamReader.Read jr count fetch = (some msgs, none) →
      ∀ rm ∈ msgs, ∃ mm : NatsMsg, rm.readOffset = newOffset mm jr.inProgessTickDuration) := by
  have hcf : (newOffset m tickDurationNs).cancelFunc =
      if 1 < (tickDurationNs : ℚ) / 1000000000 then some () else none := by
    unfold newOffset
    split <;> rfl
  refine ⟨?_, ?_, ?_⟩
  · rw [hcf]
    by_cases hlt : 1 < (tickDurationNs : ℚ) / 1000000000
    · simp only [if_pos hlt]
      exact iff_of_true rfl ((one_lt_div_1e9_iff tickDurationNs).mp hlt)
    · simp only [if_neg hlt]
      refine iff_of_false (by simp) ?_
      intro hc
      exact hlt ((one_lt_div_1e9_iff tickDurationNs).mpr hc)
  · intro hle
    rw [hcf, if_neg]
    intro hlt
    exact absurd ((one_lt_div_1e9_iff tickDurationNs).mp hlt) (not_lt.mpr hle)
  · intro jr count fetch msgs hread rm hrm
    simp only [jetStreamReader.Read] at hread
    split at hread
    · simp at hread
    · rw [Prod.mk.injEq] at hread
      rcases hread with ⟨hmsgs, -⟩
      rw [Option.some_inj] at hmsgs
      rw [← hmsgs] at hrm
      rcases List.mem_map.mp hrm with ⟨mm, -, hwrap⟩
      exact ⟨mm, by rw [← hwrap]; rfl⟩

/-- Witness for C6 at concrete tick durations of two seconds and one
second. -/
theorem c6_witness :
    (newOffset { metaSeq := 7, header := [], data := [] } 2000000000).cancelFunc = some () ∧
    (newOffset { metaSeq := 7, header := [], data := [] } 1000000000).cancelFunc = none := by
  constructor
  · have h := (c6_heartbeat_iff { metaSeq := 7, header := [], data := [] } 2000000000).1.mpr
      (by norm_num)
    revert h
    cases (newOffset { metaSeq := 7, header := [], data := [] } 2000000000).cancelFunc <;> simp
  · exact (c6_heartbeat_iff { metaSeq := 7, header := [], data := [] } 1000000000).2.1 le_rfl

set_option maxHeartbeats 2000000 in
/-- Shared lemma: closed form of `convert2IsbMsgHeader`, field by field. -/
theorem convert2IsbMsgHeader_fields (h : NatsHeader) :
    convert2IsbMsgHeader h =
      { isWindow := headerGet h keyWindow == "1"
        id := headerGet h keyId
        key := headerGet h keyKey
        eventTime :=
          if headerGet h keyEventTime = "" then none
          else some (goParseInt64 (headerGet h keyEventTime))
        startTime :=
          if headerGet h keyStartTime = "" then none
          else some (goParseInt64 (headerGet h keyStartTime))
        endTime :=
          if headerGet h keyEndTime = "" then none
          else some (goParseInt64 (headerGet h keyEndTime)) } := by
  simp only [convert2IsbMsgHeader]
  split_ifs <;> simp_all [bne_iff_ne, beq_iff_eq]

/-- C7: decoding broker headers leaves every field of the `isb.Header` at
its zero value when the corresponding header is absent, decodes a present
but non-numeric time header to zero (the epoch in milliseconds) without any
error, and sets `IsWindow` exactly when the window header holds the literal
"1". -/
theorem c7_header_decode (h : NatsHeader) :
    ((convert2IsbMsgHeader h).isWindow = true ↔ headerGet h keyWindow = "1") ∧
    (headerGet h keyId = "" → (convert2IsbMsgHeader h).id = "") ∧
    (headerGet h keyKey = "" → (convert2IsbMsgHeader h).key = "") ∧
    (headerGet h keyEventTime = "" → (convert2IsbMsgHeader h).eventTime = none) ∧
    (headerGet h keyStartTime = "" → (convert2IsbMsgHeader h).startTime = none) ∧
    (headerGet h keyEndTime = "" → (convert2IsbMsgHeader h).endTime = none) ∧
    (headerGet h keyEventTime ≠ "" → goParseInt64Strict (headerGet h keyEventTime) = none →
      (convert2IsbMsgHeader h).eventTime = some 0) ∧
    (headerGet h keyStartTime ≠ "" → goParseInt64Strict (headerGet h keyStartTime) = none →
      (convert2IsbMsgHeader h).startTime = some 0) ∧
    (headerGet h keyEndTime ≠ "" → goParseInt64Strict (headerGet h keyEndTime) = none →
      (convert2IsbMsgHeader h).endTime = some 0) := by
  rw [convert2IsbMsgHeader_fields]
  refine ⟨by simp, fun hid => by simp [hid], fun hkey => by simp [hkey],
    fun he => by simp [he], fun hs => by simp [hs], fun hn => by simp [hn], ?_, ?_, ?_⟩
  · intro hne hsyn
    simp [if_neg hne, goParseInt64, hsyn]
  · intro hne hsyn
    simp [if_neg hne, goParseInt64, hsyn]
  · intro hne hsyn
    simp [if_neg hne, goParseInt64, hsyn]

/-- Witness for C7 at a concrete header: window present as "1", a
non-numeric event time, every other header absent. -/
theorem c7_witness :
    (convert2IsbMsgHeader [("window", ["1"]), ("eventTime", ["abc"])]).isWindow = true ∧
    (convert2IsbMsgHeader [("window", ["1"]), ("eventTime", ["abc"])]).eventTime = some 0 ∧
    (convert2IsbMsgHeader [("window", ["1"]), ("eventTime", ["abc"])]).startTime = none := by
  refine ⟨?_, ?_, ?_⟩
  · exact (c7_header_decode [("window", ["1"]), ("eventTime", ["abc"])]).1.mpr rfl
  · exact (c7_header_decode [("window", ["1"]), ("eventTime", ["abc"])]).2.2.2.2.2.2.1
      (by decide) rfl
  · exact (c7_header_decode [("window", ["1"]), ("eventTime", ["abc"])]).2.2.2.2.1 rfl

/-- C8 counterexample: with the pipeline-name environment variable unset
and an empty buffer list, the create command reports the empty buffer list,
not the missing environment variable — so an unset `PipelineName` does not
fail with `MissingEnv` regardless of the other arguments. -/
theorem c8_counterexample :
    isbSvcBufferCreate none [] "jetstream" = Except.error CmdErr.emptyBufferList ∧
    isbSvcBufferCreate none [] "jetstream" ≠
      Except.error (CmdErr.missingEnv EnvPipelineName) := by
  refine ⟨rfl, ?_⟩
  intro hcontra
  simp [isbSvcBufferCreate] at hcontra

/-- C8 amended: whenever the pipeline-name environment variable is unset
and a non-empty buffer list is supplied, each of the three lifecycle
commands fails with the missing-environment error naming `PipelineName`,
whatever the isbsvc type; an empty buffer list is reported first instead. -/
theorem c8_amended_missing_env (buffers : List String) (isbSvcType : String)
    (hb : buffers ≠ []) :
    isbSvcBufferCreate none buffers isbSvcType =
      Except.error (CmdErr.missingEnv EnvPipelineName) ∧
    isbSvcBufferDelete none buffers isbSvcType =
      Except.error (CmdErr.missingEnv EnvPipelineName) ∧
    isbSvcBufferValidate none buffers isbSvcType =
      Except.error (CmdErr.missingEnv EnvPipelineName) := by
  have hbe : buffers.isEmpty = false := by
    cases buffers with
    | nil => exact absurd rfl hb
    | cons a as => rfl
  exact ⟨by simp [isbSvcBufferCreate, hbe], by simp [isbSvcBufferDelete, hbe],
    by simp [isbSvcBufferValidate, hbe]⟩

/-- Witness for C8 amended: the scenario of the command test — buffers
supplied, unsupported isbsvc type, pipeline name unset. -/
theorem c8_witness :
    isbSvcBufferCreate none ["buffer1"] "nonono" =
      Except.error (CmdErr.missingEnv EnvPipelineName) :=
  (c8_amended_missing_env ["buffer1"] "nonono" (by simp)).1

/-- C9: `copyVertexLimits` merges field by field with vertex-over-pipeline
precedence; with no vertex limits the pipeline values are taken, and on the
spec example (pipeline batch 1 / timeout 2s, vertex batch 2 / timeout 3s)
the vertex values win. -/
theorem c9_copyVertexLimits_precedence :
    (∀ (pl : PipelineLimits) (v : VertexLimits),
      copyVertexLimits (some pl) (some v) =
        some
          { readBatchSize :=
              match v.readBatchSize with
              | some a => some a
              | none => pl.readBatchSize
            readTimeout :=
              match v.readTimeout with
              | some a => some a
              | none => pl.readTimeout }) ∧
    (∀ pl : PipelineLimits,
      copyVertexLimits (some pl) none =
        some { readBatchSize := pl.readBatchSize, readTimeout := pl.readTimeout }) ∧
    (∀ v : Option VertexLimits, copyVertexLimits none v = v) ∧
    copyVertexLimits
        (some { readBatchSize := some 1, readTimeout := some 2000000000 })
        (some { readBatchSize := some 2, readTimeout := some 3000000000 }) =
      some { readBatchSize := some 2, readTimeout := some 3000000000 } ∧
    copyVertexLimits
        (some { readBatchSize := some 1, readTimeout := some 2000000000 }) none =
      some { readBatchSize := some 1, readTimeout := some 2000000000 } :=
  ⟨fun _ _ => rfl, fun _ => rfl, fun _ => rfl, rfl, rfl⟩

end Numaflow
